import Mathlib

/-!
Verification of the heuristic content-originality scorer of the repository
(`src/lib/ai-service.ts`): the local similarity scorer `calculateLocalSimilarity`,
the local authorship heuristic `detectAIContent`, and the batch entry point
`detectPlagiarism` (its local, non-LLM branch).

Modelling conventions:
* JavaScript strings are `List Char`; `.length` is list length.
* JavaScript numbers are modelled exactly over `ℚ` (the heuristics only use
  `+ - * /`, `Math.min`, `Math.max` on small values, so `ℚ` stands in for
  IEEE doubles; `ℚ` has no `NaN`, and all denominators are shown positive).
* `text.split(/\s+/)` (JavaScript semantics: the empty string splits to
  `[""]`, leading/trailing separator runs produce empty pieces) is
  `splitRuns isJsWhitespace`.
* The regex alternations of word patterns with `\b` anchors and the `gi`
  flags are executed by a scanner (`countWordAlts`) that reproduces
  JavaScript's leftmost, non-overlapping, first-alternative-wins matching;
  the sequence patterns (code patterns, contractions, punctuation) are
  executed by `countSeq` over a token list.  All alternatives used here
  begin and end with word characters, so `\b` reduces to a check that the
  neighbouring character is not a word character.
* `detectPlagiarism` is modelled on its local branch (no Gemini key), with
  the list of fetched submissions passed as an explicit argument.
-/

namespace AIService

/-- The characters matched by the regex class `\s` (ASCII part). -/
def isJsWhitespace (c : Char) : Bool :=
  c = ' ' || c = '\t' || c = '\n' || c = '\r' || c = Char.ofNat 11 || c = Char.ofNat 12

/-- The characters matched by the regex class `\w`: `[A-Za-z0-9_]`. -/
def isWordChar (c : Char) : Bool :=
  c.isAlpha || c.isDigit || c = '_'

/-- The characters matched by `[a-z]` under the `i` flag: ASCII letters. -/
def isAsciiLetter (c : Char) : Bool := c.isAlpha

/-- The characters matched by the regex class `[.!?]` (sentence enders). -/
def isSentenceEnd (c : Char) : Bool :=
  c = '.' || c = '!' || c = '?'

/-- JavaScript `String.prototype.split` on a regex matching nonempty runs of
characters satisfying `p`: pieces between maximal runs are returned, and a
leading or trailing run contributes an empty piece (`"".split` gives `[""]`). -/
def splitRuns (p : Char → Bool) : List Char → List (List Char)
  | [] => [[]]
  | c :: cs =>
    if p c then
      match cs with
      | [] => [] :: splitRuns p cs
      | d :: _ => if p d then splitRuns p cs else [] :: splitRuns p cs
    else
      match splitRuns p cs with
      | [] => [[c]]
      | h :: t => (c :: h) :: t

/-- `s.toList` shorthand for writing the source's string literals. -/
def strToL (s : String) : List Char := s.toList

/-- The word tokens of a text: `content.split(/\s+/)`. -/
def jsWords (t : List Char) : List (List Char) := splitRuns isJsWhitespace t

/-- `content.split(/\s+/).length`, the word count used as denominator. -/
def wordCount (t : List Char) : ℕ := (jsWords t).length

/-- The pieces of `content.split(/[.!?]+/)`. -/
def sentencePieces (t : List Char) : List (List Char) := splitRuns isSentenceEnd t

/-- `new Set(text.toLowerCase().split(/\s+/))`: the set of lowercased word
tokens of a text (duplicates collapse; JavaScript `Set` equality is exact
string equality). -/
def wordFinset (t : List Char) : Finset (List Char) :=
  (splitRuns isJsWhitespace (t.map Char.toLower)).toFinset

/-- `intersection.size / union.size` over the two lowercased word sets
(`calculateLocalSimilarity`, first metric). -/
def jaccardOf (t1 t2 : List Char) : ℚ :=
  (((wordFinset t1) ∩ (wordFinset t2)).card : ℚ) / (((wordFinset t1) ∪ (wordFinset t2)).card : ℚ)

/-- `const longerText = text1.length > text2.length ? text1 : text2`. -/
def longerOf (t1 t2 : List Char) : List Char :=
  if t1.length > t2.length then t1 else t2

/-- `const shorterText = text1.length > text2.length ? text2 : text1`. -/
def shorterOf (t1 t2 : List Char) : List Char :=
  if t1.length > t2.length then t2 else t1

/-- The window length `minLength = Math.min(20, shorterText.length)`. -/
def windowLenOf (shorter : List Char) : ℕ := min 20 shorter.length

/-- JavaScript `hay.includes(needle)`: `needle` occurs as a contiguous
substring of `hay` (exact, case-sensitive comparison). -/
def jsIncludes : List Char → List Char → Bool
  | [], needle => needle.isEmpty
  | c :: t, needle => needle.isPrefixOf (c :: t) || jsIncludes t needle

/-- The loop of `calculateLocalSimilarity`: for each offset
`i = 0 .. shorterText.length - minLength`, test whether the window
`shorterText.substring(i, i + minLength)` occurs in `longerText`
(`longerText.includes(substring)`), and count the offsets that match. -/
def windowMatchCount (shorter longer : List Char) : ℕ :=
  ((List.range (shorter.length - windowLenOf shorter + 1)).filter fun i =>
    jsIncludes longer ((shorter.drop i).take (windowLenOf shorter))).length

/-- `substringMatches / (shorterText.length - minLength + 1)`. -/
def substringScoreOf (shorter longer : List Char) : ℚ :=
  (windowMatchCount shorter longer : ℚ) / ((shorter.length - windowLenOf shorter + 1 : ℕ) : ℚ)

/-- `Math.min` on exact rationals (kernel-computable, unlike `min` on `ℚ`
through the order structure; equal to it by `jsMin_eq_min`). -/
def jsMin (a b : ℚ) : ℚ := if a ≤ b then a else b

/-- `Math.max` on exact rationals (equal to `max` by `jsMax_eq_max`). -/
def jsMax (a b : ℚ) : ℚ := if a ≤ b then b else a

/-- `calculateLocalSimilarity(text1, text2)` from `src/lib/ai-service.ts`:
`Math.min(1, jaccardSimilarity * 0.7 + substringSimilarity * 0.3)`. -/
def calculateLocalSimilarity (text1 text2 : List Char) : ℚ :=
  jsMin 1 (jaccardOf text1 text2 * 0.7 + substringScoreOf (shorterOf text1 text2) (longerOf text1 text2) * 0.3)

/-! ### A scanner for the regex word-alternation patterns

Every counting regex of `detectAIContent` of the shape
`/\b(alt1|alt2|...)\b/gi` is executed by `countWordAlts`.  Each alternative
used in the source begins and ends with a letter, so the leading `\b` holds
iff the preceding character is not a word character (or the position is the
start), and the trailing `\b` holds iff the following character is not a word
character (or the position is the end).  The scanner advances left to right,
at each position trying the alternatives in their written order
(first-alternative-wins, as in JavaScript), and resumes after a match
(non-overlapping `g` semantics). -/

/-- Leading `\b` before an alternative that starts with a word character:
the previous character (if any) is not a word character. -/
def jsBoundaryPrev : Option Char → Bool
  | none => true
  | some c => !isWordChar c

/-- Trailing `\b` after an alternative that ends with a word character:
the next character (if any) is not a word character. -/
def endBoundary : List Char → Bool
  | [] => true
  | c :: _ => !isWordChar c

/-- Strip `pat` from the front of `l`, comparing case-insensitively
(the `i` flag); return the remainder on success. -/
def ciStripPrefix : List Char → List Char → Option (List Char)
  | [], rest => some rest
  | _ :: _, [] => none
  | p :: ps, c :: cs => if p.toLower = c.toLower then ciStripPrefix ps cs else none

/-- Try the alternatives in order at the current position; return the matched
alternative and the remainder, requiring the trailing boundary. -/
def findAltMatch (alts : List (List Char)) (l : List Char) : Option (List Char × List Char) :=
  alts.findSome? fun a =>
    match ciStripPrefix a l with
    | some rest => if endBoundary rest then some (a, rest) else none
    | none => none

/-- Fueled scanner: `prev` is the character just before the current position.
The fuel is the remaining text length, which suffices because every step
consumes at least one character (all alternatives are nonempty). -/
def countWordAltsAux (alts : List (List Char)) : ℕ → Option Char → List Char → ℕ
  | 0, _, _ => 0
  | _, _, [] => 0
  | Nat.succ fuel, prev, c :: cs =>
    if jsBoundaryPrev prev then
      match findAltMatch alts (c :: cs) with
      | some (a, rest) =>
        if rest.length ≤ fuel then 1 + countWordAltsAux alts fuel a.getLast? rest
        else countWordAltsAux alts fuel (some c) cs
      | none => countWordAltsAux alts fuel (some c) cs
    else countWordAltsAux alts fuel (some c) cs

/-- `(content.match(/\b(alt1|alt2|...)\b/gi) || []).length`. -/
def countWordAlts (alts : List (List Char)) (text : List Char) : ℕ :=
  countWordAltsAux alts text.length none text

/-! ### A scanner for the deterministic sequence patterns

The remaining regexes of `detectAIContent` (code patterns, the contraction
pattern `[a-z]+'[a-z]+`, the punctuation pattern `[.!?]\s+[A-Z]`) are
concatenations of literals and character classes with `*`/`+` quantifiers.
In every such pattern of the source each quantified class excludes the
character that the next token requires, so greedy, non-backtracking matching
agrees with JavaScript's backtracking semantics. -/

/-- Character classes appearing in the sequence patterns. -/
inductive CClass
  | ws | word | notRParen | upper | letter | sentEnd
deriving DecidableEq

/-- Membership in a character class. -/
def CClass.mem : CClass → Char → Bool
  | .ws, c => isJsWhitespace c
  | .word, c => isWordChar c
  | .notRParen, c => c ≠ ')'
  | .upper, c => c.isUpper
  | .letter, c => c.isAlpha
  | .sentEnd, c => isSentenceEnd c

/-- One token of a sequence pattern: a literal character or a quantified class. -/
inductive PatTok
  | lit (c : Char)
  | one (k : CClass)
  | star (k : CClass)
  | plus (k : CClass)
deriving DecidableEq

/-- Greedy matcher for a sequence pattern at the current position; `ci` selects
case-insensitive literal comparison (the `i` flag).  Returns the remainder. -/
def matchToks (ci : Bool) : List PatTok → List Char → Option (List Char)
  | [], rest => some rest
  | .lit ch :: ps, c :: cs =>
    if (if ci then ch.toLower = c.toLower else ch = c) then matchToks ci ps cs else none
  | .lit _ :: _, [] => none
  | .one k :: ps, c :: cs => if k.mem c then matchToks ci ps cs else none
  | .one _ :: _, [] => none
  | .star k :: ps, l => matchToks ci ps (l.dropWhile k.mem)
  | .plus k :: ps, l =>
    if (l.takeWhile k.mem).isEmpty then none else matchToks ci ps (l.dropWhile k.mem)

/-- Fueled scanner counting non-overlapping matches of a sequence pattern;
`leadB` demands a leading `\b` (all code patterns begin with a letter). -/
def countSeqAux (ci leadB : Bool) (p : List PatTok) : ℕ → Option Char → List Char → ℕ
  | 0, _, _ => 0
  | _, _, [] => 0
  | Nat.succ fuel, prev, c :: cs =>
    let skip := fun _ : Unit => countSeqAux ci leadB p fuel (some c) cs
    if leadB && !jsBoundaryPrev prev then skip ()
    else
      match matchToks ci p (c :: cs) with
      | some rest =>
        if rest.length ≤ fuel then
          1 + countSeqAux ci leadB p fuel ((List.take ((c :: cs).length - rest.length) (c :: cs)).getLast?) rest
        else skip ()
      | none => skip ()

/-- `(content.match(pattern) || []).length` for a sequence pattern. -/
def countSeq (ci leadB : Bool) (p : List PatTok) (text : List Char) : ℕ :=
  countSeqAux ci leadB p text.length none text

/-! ### The pattern tables of `detectAIContent` -/

/-- Alternative lists written as string literals. -/
def mkAlts (l : List String) : List (List Char) := l.map strToL

/-- `strongAIPatterns` (each scored `(matches.length / words) * 20`). -/
def strongAIPatterns : List (List (List Char)) :=
  [ mkAlts ["it is important to note", "it should be noted", "it is worth mentioning",
            "it is crucial to"],
    mkAlts ["in order to", "with the aim of", "for the purpose of", "in an effort to"],
    mkAlts ["it is evident that", "it is clear that", "it is apparent that"],
    mkAlts ["plays a crucial role", "is essential", "is vital", "is significant"],
    mkAlts ["in today's world", "in the modern era", "in recent years", "in the digital age"],
    mkAlts ["has become increasingly", "has been growing", "has evolved to become"],
    mkAlts ["offers tremendous", "presents significant", "provides valuable"],
    mkAlts ["numerous benefits", "various aspects", "comprehensive approach"],
    mkAlts ["facilitate the process", "optimize performance", "leverage technology"] ]

/-- `moderateAIPatterns` (each scored `(matches.length / words) * 5`). -/
def moderateAIPatterns : List (List (List Char)) :=
  [ mkAlts ["however", "furthermore", "moreover", "additionally", "in conclusion",
            "to summarize", "in summary"],
    mkAlts ["comprehensive", "thorough", "detailed", "extensive", "systematic"],
    mkAlts ["utilize", "facilitate", "implement", "enhance", "optimize", "leverage"],
    mkAlts ["thus", "hence", "therefore", "consequently", "accordingly", "subsequently"],
    mkAlts ["one of the", "some of the", "many of the", "various"] ]

/-- The seven word-alternation `humanIndicators` (each scored
`(matches.length / words) * 30`); the eighth indicator, the contraction
pattern `/[a-z]+'[a-z]+/gi`, is `contractionPat` below. -/
def humanIndicatorAlts : List (List (List Char)) :=
  [ mkAlts ["I", "we", "my", "our", "me", "us", "myself", "we're", "I'm", "I've", "I'll"],
    mkAlts ["actually", "really", "just", "kinda", "sorta", "definitely", "probably", "maybe"],
    mkAlts ["damn", "shit", "gosh", "wow", "cool", "nice", "awesome", "sucks"],
    mkAlts ["I think", "I believe", "I feel", "in my opinion", "I guess"],
    mkAlts ["idk", "idc", "lol", "omg", "tbh", "imo", "btw"],
    mkAlts ["probably", "maybe", "might", "could", "should", "would"],
    mkAlts ["because", "so", "but", "and", "like", "you know"] ]

/-- `/[a-z]+'[a-z]+/gi` (contractions; the `i` flag makes `[a-z]` any letter). -/
def contractionPat : List PatTok :=
  [.plus .letter, .lit '\'', .plus .letter]

/-- `/\b(I|we|my|our|me|us|myself|ourselves|I'm|I've|I'll|we're)\b/gi`
(the pronoun-density check). -/
def pronounAlts : List (List Char) :=
  mkAlts ["I", "we", "my", "our", "me", "us", "myself", "ourselves", "I'm", "I've", "I'll", "we're"]

/-- `/\b(actually|really|just|kinda|sorta|maybe|probably|definitely|cool|nice|awesome)\b/gi`
(the casual-language check). -/
def casualAlts : List (List Char) :=
  mkAlts ["actually", "really", "just", "kinda", "sorta", "maybe", "probably", "definitely",
          "cool", "nice", "awesome"]

/-- `/[.!?]\s+[A-Z]/g` (perfect punctuation; no `i` flag). -/
def perfectPunctPat : List PatTok :=
  [.one .sentEnd, .plus .ws, .one .upper]

/-- `/\b(analysis|implementation|methodology|framework|paradigm|infrastructure|optimization|utilization)\b/gi`. -/
def formalAlts : List (List Char) :=
  mkAlts ["analysis", "implementation", "methodology", "framework", "paradigm",
          "infrastructure", "optimization", "utilization"]

/-- `/\b(actually|really|like|you know|I mean)\b/gi` (conversational connectors). -/
def convConnAlts : List (List Char) :=
  mkAlts ["actually", "really", "like", "you know", "I mean"]

/-- A literal run of pattern tokens. -/
def lits (s : String) : List PatTok := s.toList.map PatTok.lit

/-- The opening brace character. -/
def lbrace : Char := Char.ofNat 123

/-- The token run `\s*\([^)]*\)\s*\{` shared by several code patterns. -/
def parenThenBrace : List PatTok :=
  [.star .ws, .lit '(', .star .notRParen, .lit ')', .star .ws, .lit lbrace]

/-- The eleven `codePatterns` of the code-specific branch (all `gi`, all with
a leading `\b`), each counted and scored `matches.length * 0.1`. -/
def codePatterns : List (List PatTok) :=
  [ lits "function" ++ [.plus .ws, .plus .word] ++ parenThenBrace,
    lits "const" ++ [.plus .ws, .plus .word, .star .ws, .lit '=', .star .ws, .lit '(',
                     .star .notRParen, .lit ')', .star .ws, .lit '=', .lit '>'],
    lits "if" ++ parenThenBrace,
    lits "for" ++ parenThenBrace,
    lits "while" ++ parenThenBrace,
    lits "try" ++ [.star .ws, .lit lbrace],
    lits "catch" ++ parenThenBrace,
    lits "console.log(",
    lits "return" ++ [.plus .ws],
    lits "import" ++ [.plus .ws],
    lits "export" ++ [.plus .ws] ]

/-- `content.includes('function') || content.includes('const') ||
content.includes('let') || content.includes('var')`. -/
def hasCodeKeyword (t : List Char) : Bool :=
  jsIncludes t (strToL "function") || jsIncludes t (strToL "const") ||
  jsIncludes t (strToL "let") || jsIncludes t (strToL "var")

/-! ### The typo backreference check -/

/-- Case-insensitive equality of character lists (the `i` flag applied to a
backreference). -/
def ciEq (a b : List Char) : Bool :=
  a.length = b.length && (a.zip b).all fun p => p.1.toLower = p.2.toLower

/-- A match of `/\b([a-z]+)(\1)\b/i` at position `i` with group length `k`:
`2*k` letters forming a case-insensitive doubling, with word boundaries on
both sides. -/
def jsTypoMatchAt (text : List Char) (i k : ℕ) : Bool :=
  let seg := (text.drop i).take (2 * k)
  seg.length = 2 * k &&
  seg.all isAsciiLetter &&
  ciEq (seg.take k) (seg.drop k) &&
  jsBoundaryPrev (text.take i).getLast? &&
  endBoundary (text.drop (i + 2 * k))

/-- `content.match(/\b([a-z]+)(\1)\b/gi)` is non-null: some position carries a
match of the doubled-group pattern.  Note the source regex has no space
between the two groups. -/
def jsHasTypos (text : List Char) : Bool :=
  (List.range (text.length + 1)).any fun i =>
    (List.range (text.length + 1)).any fun k =>
      decide (k ≠ 0) && jsTypoMatchAt text i k

/-! ### Sentence-start repetition -/

/-- JavaScript `String.prototype.trim`. -/
def jsTrim (l : List Char) : List Char :=
  ((l.dropWhile isJsWhitespace).reverse.dropWhile isJsWhitespace).reverse

/-- `content.split(/[.!?]+/).map(s => s.trim().split(' ')[0]).filter(s => s)`:
the first space-delimited chunk of each trimmed sentence piece, empty chunks
dropped (`split(' ')` splits on the single space character). -/
def sentenceStarts (t : List Char) : List (List Char) :=
  ((sentencePieces t).map fun s => (jsTrim s).takeWhile (· ≠ ' ')).filter (· ≠ [])

/-! ### `detectAIContent` -/

/-- The accumulator value `aiScore` of `detectAIContent` just before the final
combination: strong patterns (weight 20), moderate patterns (weight 5),
repetitive sentence starts (+0.3), perfect punctuation (+0.2), formal
vocabulary (+0.3), and the code-pattern branch (+0.4). -/
def aiScoreOf (content : List Char) : ℚ :=
  let words : ℚ := (wordCount content : ℚ)
  let strongSum : ℚ :=
    (strongAIPatterns.map fun p => ((countWordAlts p content : ℚ) / words) * 20).sum
  let moderateSum : ℚ :=
    (moderateAIPatterns.map fun p => ((countWordAlts p content : ℚ) / words) * 5).sum
  let starts := sentenceStarts content
  let repetitiveBonus : ℚ :=
    if starts.length > 3 ∧ ((starts.dedup.length : ℚ) / (starts.length : ℚ) < 0.4)
    then 0.3 else 0
  let perfectCount := countSeq false false perfectPunctPat content
  let totalSentences := (sentencePieces content).length - 1
  let punctBonus : ℚ :=
    if 0 < totalSentences ∧ ((perfectCount : ℚ) / (totalSentences : ℚ) > 0.8)
    then 0.2 else 0
  let formalBonus : ℚ :=
    if (countWordAlts formalAlts content : ℚ) / words > 0.05 then 0.3 else 0
  let codeBonus : ℚ :=
    if hasCodeKeyword content ∧
       ((codePatterns.map fun p => (countSeq true true p content : ℚ) * 0.1).sum > 0.5)
    then 0.4 else 0
  strongSum + moderateSum + repetitiveBonus + punctBonus + formalBonus + codeBonus

/-- The accumulator value `humanScore` of `detectAIContent`: the eight human
indicators (weight 30), the pronoun-density bonus (0.6 / 0.3), and the
casual-language bonus (density times 40). -/
def humanScoreOf (content : List Char) : ℚ :=
  let words : ℚ := (wordCount content : ℚ)
  let altsSum : ℚ :=
    (humanIndicatorAlts.map fun p => ((countWordAlts p content : ℚ) / words) * 30).sum
  let contractionSum : ℚ := ((countSeq true false contractionPat content : ℚ) / words) * 30
  let pronounRatio : ℚ := (countWordAlts pronounAlts content : ℚ) / words
  let pronounBonus : ℚ :=
    if pronounRatio > 0.03 then 0.6 else if pronounRatio > 0.015 then 0.3 else 0
  let casualCount := countWordAlts casualAlts content
  let casualBonus : ℚ := if casualCount > 0 then ((casualCount : ℚ) / words) * 40 else 0
  altsSum + contractionSum + pronounBonus + casualBonus

/-- The pre-clamp value of `detectAIContent`:
`aiScore - humanScore * 0.5`, minus 0.2 when the typo regex matches, minus 0.3
when conversational connectors exceed 2% of the words. -/
def rawAIScore (content : List Char) : ℚ :=
  let typoAdj : ℚ := if jsHasTypos content then 0.2 else 0
  let convAdj : ℚ :=
    if (countWordAlts convConnAlts content : ℚ) > (wordCount content : ℚ) * 0.02
    then 0.3 else 0
  aiScoreOf content - humanScoreOf content * 0.5 - typoAdj - convAdj

/-- `detectAIContent(content)` from `src/lib/ai-service.ts`:
`Math.max(0, Math.min(finalScore, 1))`. -/
def detectAIContent (content : List Char) : ℚ :=
  jsMax 0 (jsMin (rawAIScore content) 1)

/-! ### `detectPlagiarism` (local branch)

The entry point fetches all other submissions from the database and, when no
Gemini key is configured, compares the candidate against each of them with
`calculateLocalSimilarity`.  The fetched list is here an explicit argument. -/

/-- A fetched submission row (`select id, content, title`); `content` is
`Option` to model a null/absent field, and the loop's `if (!submission.content)
continue` also skips the empty string. -/
structure Submission where
  content : Option (List Char)
  title : List Char
deriving DecidableEq

/-- One entry of the `matches` array of `detectPlagiarism`. -/
structure PlagMatch where
  text : List Char
  similarity : ℚ
  source : Option (List Char)
deriving DecidableEq

/-- The result record of `detectPlagiarism`; the field called `matches` in the
source is `matchList` here (`matches` is reserved in Lean). -/
structure PlagiarismResult where
  score : ℚ
  matchList : List PlagMatch
deriving DecidableEq

/-- JavaScript truthiness of the `content` field: `null`/missing and the empty
string are falsy. -/
def contentTruthy : Option (List Char) → Bool
  | none => false
  | some [] => false
  | some (_ :: _) => true

/-- The loop body of the local branch: skip a falsy `content`, otherwise
compare and retain the match when `similarity > 0.3`, with the first 200
characters of the matched content as excerpt and the title as source. -/
def submissionMatch (content : List Char) (s : Submission) : Option PlagMatch :=
  match s.content with
  | none => none
  | some [] => none
  | some c =>
    let sim := calculateLocalSimilarity content c
    if sim > 0.3 then some ⟨c.take 200 ++ strToL "...", sim, some s.title⟩ else none

/-- `matches.length > 0 ? Math.max(...matches.map(m => m.similarity)) : 0`. -/
def jsListMax : List ℚ → ℚ
  | [] => 0
  | m :: ms => ms.foldl jsMax m

/-- `detectPlagiarism(content, ...)` from `src/lib/ai-service.ts`, local
branch, with the fetched rows as an argument: corpus matches above 0.3, an
appended AI-content pseudo-match when `detectAIContent(content) > 0.6`, the
maximum similarity as score, and the match list truncated to 10. -/
def detectPlagiarism (content : List Char) (otherSubmissions : List Submission) :
    PlagiarismResult :=
  let simMatches := otherSubmissions.filterMap (submissionMatch content)
  let aiContentScore := detectAIContent content
  let allMatches :=
    if aiContentScore > 0.6 then
      simMatches ++ [⟨strToL "AI-generated content detected", aiContentScore,
                      some (strToL "AI Content Detection")⟩]
    else simMatches
  let maxSimilarity := jsListMax (allMatches.map PlagMatch.similarity)
  ⟨maxSimilarity, allMatches.take 10⟩

/-! ### Definitions written from the specification's wording, for comparison -/

/-- The substring overlap sub-score as the specification words it (§4.1 step
3): "count how many *distinct* windows occur verbatim as a substring of
`longer`", i.e. repeated window strings counted once; degenerate case
(`length(shorter) <= windowLen`) defined as 1.0 when `shorter` is a substring
of `longer`, else 0.0.  Written from the spec, not the source, to compare the
two in claim C5. -/
def specDistinctOverlap (shorter longer : List Char) : ℚ :=
  let wlen := min 20 shorter.length
  if shorter.length ≤ wlen then (if jsIncludes longer shorter then 1 else 0)
  else
    (((((List.range (shorter.length - wlen + 1)).map fun i =>
          (shorter.drop i).take wlen).dedup).filter fun w => jsIncludes longer w).length : ℚ) /
      ((shorter.length - wlen + 1 : ℕ) : ℚ)

/-- The full similarity formula as claim C5 words it, with the
distinct-window overlap sub-score. -/
def specLocalSimilarity (t1 t2 : List Char) : ℚ :=
  jsMin 1 (jaccardOf t1 t2 * 0.7 +
    specDistinctOverlap (shorterOf t1 t2) (longerOf t1 t2) * 0.3)

/-- The substring overlap sub-score with windows counted once per offset
(with multiplicity), which is what the source's loop computes; the degenerate
case is stated as in the spec.  Used for the amended form of claim C5. -/
def offsetOverlap (shorter longer : List Char) : ℚ :=
  let wlen := min 20 shorter.length
  if shorter.length ≤ wlen then (if jsIncludes longer shorter then 1 else 0)
  else
    ((((List.range (shorter.length - wlen + 1)).filter fun i =>
        jsIncludes longer ((shorter.drop i).take wlen)).length : ℕ) : ℚ) /
      ((shorter.length - wlen + 1 : ℕ) : ℚ)

/-- Claim C8's premise, from its wording: the text contains an
immediately-repeated word pair, i.e. two consecutive identical nonempty
whitespace-delimited words such as "the the". -/
def hasImmediateRepeatedWordPair (t : List Char) : Bool :=
  let ws := jsWords t
  (ws.zip ws.tail).any fun p => decide (p.1 ≠ []) && decide (p.1 = p.2)

/-- The contents of the corpus entries that the loop actually compares
(truthy `content` fields). -/
def validContents (subs : List Submission) : List (List Char) :=
  subs.filterMap fun s =>
    match s.content with
    | none => none
    | some [] => none
    | some c => some c

/-- The pairwise similarities the loop retains: scores of compared corpus
items that strictly exceed the 0.3 threshold. -/
def retainedSims (content : List Char) (subs : List Submission) : List ℚ :=
  ((validContents subs).map (calculateLocalSimilarity content)).filter
    fun q => decide (q > 0.3)

/-! ## Helper lemmas -/

/- The rational operations are `@[irreducible]` in Batteries, which blocks
`decide`-based evaluation of the concrete test cases below at elaboration
time; making them semireducible only re-enables unfolding (the kernel always
could). -/
attribute [local semireducible] Rat.add Rat.mul Rat.inv Rat.sub Rat.ofScientific

/-- `jsMin` agrees with the order-theoretic `min` on `ℚ`. -/
theorem jsMin_eq_min (a b : ℚ) : jsMin a b = min a b := by
  unfold jsMin
  by_cases h : a ≤ b
  · rw [if_pos h, min_eq_left h]
  · rw [if_neg h, min_eq_right (le_of_not_le h)]

/-- `jsMax` agrees with the order-theoretic `max` on `ℚ`. -/
theorem jsMax_eq_max (a b : ℚ) : jsMax a b = max a b := by
  unfold jsMax
  by_cases h : a ≤ b
  · rw [if_pos h, max_eq_right h]
  · rw [if_neg h, max_eq_left (le_of_not_le h)]

/-- Unfolding lemma for `splitRuns` on a nonempty list. -/
theorem splitRuns_cons (p : Char → Bool) (c : Char) (cs : List Char) :
    splitRuns p (c :: cs) =
      if p c then
        match cs with
        | [] => [] :: splitRuns p cs
        | d :: _ => if p d then splitRuns p cs else [] :: splitRuns p cs
      else
        match splitRuns p cs with
        | [] => [[c]]
        | h :: t => (c :: h) :: t := rfl

/-- JavaScript's `split` never returns an empty array. -/
theorem splitRuns_length_pos (p : Char → Bool) (l : List Char) :
    0 < (splitRuns p l).length := by
  induction l with
  | nil => simp [splitRuns]
  | cons c cs ih =>
    rw [splitRuns_cons]
    by_cases hc : p c = true
    · simp only [hc, if_true]
      cases cs with
      | nil => simp
      | cons d ds =>
        by_cases hd : p d = true
        · simpa [hd] using ih
        · simp [hd]
    · simp only [hc, if_false]
      rcases h : splitRuns p cs with _ | ⟨h1, t1⟩
      · simp
      · simp

/-- The Jaccard sub-score is symmetric in its two texts. -/
theorem jaccardOf_comm (t1 t2 : List Char) : jaccardOf t1 t2 = jaccardOf t2 t1 := by
  unfold jaccardOf
  rw [Finset.inter_comm, Finset.union_comm]

/-- When the two texts have different lengths, swapping the arguments leaves
the longer/shorter selection unchanged. -/
theorem shorterOf_longerOf_comm (t1 t2 : List Char) (h : t1.length ≠ t2.length) :
    shorterOf t1 t2 = shorterOf t2 t1 ∧ longerOf t1 t2 = longerOf t2 t1 := by
  unfold shorterOf longerOf
  rcases h.lt_or_lt with h1 | h1
  · have h2 : ¬ t1.length > t2.length := by omega
    have h3 : t2.length > t1.length := h1
    simp [h2, h3]
  · have h2 : t1.length > t2.length := h1
    have h3 : ¬ t2.length > t1.length := by omega
    simp [h2, h3]

/-- The source's window loop equals the per-offset overlap formula with the
degenerate case spelled out: when the shorter text fits in one window the
score is 1 or 0 according to whole-string containment. -/
theorem substringScoreOf_eq_offsetOverlap (s l : List Char) :
    substringScoreOf s l = offsetOverlap s l := by
  unfold substringScoreOf offsetOverlap windowMatchCount windowLenOf
  by_cases h : s.length ≤ 20
  · have hw : min 20 s.length = s.length := min_eq_right h
    rw [hw]
    have hrange : s.length - s.length + 1 = 1 := by omega
    rw [hrange]
    have hsub : (s.drop 0).take s.length = s := by simp
    have hr1 : List.range 1 = [0] := rfl
    simp only [hr1, le_refl, if_true]
    cases hin : jsIncludes l s with
    | false => simp [List.filter, hsub, hin]
    | true => simp [List.filter, hsub, hin]
  · have hw : min 20 s.length = 20 := min_eq_left (by omega)
    rw [hw]
    have h2 : ¬ s.length ≤ 20 := h
    simp [h2]

/-- The similarities of the retained corpus matches are exactly the pairwise
scores above the threshold, in corpus order. -/
theorem simMatches_map_similarity (content : List Char) (subs : List Submission) :
    ((subs.filterMap (submissionMatch content)).map PlagMatch.similarity) =
      retainedSims content subs := by
  induction subs with
  | nil => rfl
  | cons s ss ih =>
    unfold retainedSims validContents at ih ⊢
    rcases hs : s.content with _ | c
    · simp only [List.filterMap_cons, submissionMatch, hs]
      exact ih
    · rcases c with _ | ⟨c0, cr⟩
      · simp only [List.filterMap_cons, submissionMatch, hs]
        exact ih
      · simp only [List.filterMap_cons, submissionMatch, hs]
        by_cases hsim : calculateLocalSimilarity content (c0 :: cr) > 0.3
        · simp only [if_pos hsim, List.map_cons, List.filterMap_cons, List.filter_cons,
                     decide_eq_true hsim]
          rw [ih]
          simp [hsim]
        · simp only [if_neg hsim, List.filterMap_cons, List.filter_cons]
          rw [ih]
          simp [hsim]

/-- Every retained corpus match strictly exceeds the 0.3 threshold. -/
theorem submissionMatch_similarity_gt (content : List Char) (s : Submission)
    (m : PlagMatch) (h : submissionMatch content s = some m) :
    m.similarity > 0.3 := by
  rcases hs : s.content with _ | c
  · simp [submissionMatch, hs] at h
  · rcases c with _ | ⟨c0, cr⟩
    · simp [submissionMatch, hs] at h
    · simp only [submissionMatch, hs] at h
      split at h
      · cases h
        assumption
      · cases h

/-! ## Claim theorems -/

/-- Claim C1: for every input string, the authorship score returned by
`detectAIContent` and the pairwise score returned by
`calculateLocalSimilarity` lie in the closed interval `[0,1]` (and, the
arithmetic being exact rational arithmetic with positive denominators, are
never `NaN`). -/
theorem detectAIContent_calculateLocalSimilarity_mem_unit_interval
    (t c x : List Char) :
    0 ≤ detectAIContent t ∧ detectAIContent t ≤ 1 ∧
    0 ≤ calculateLocalSimilarity c x ∧ calculateLocalSimilarity c x ≤ 1 := by
  unfold detectAIContent calculateLocalSimilarity
  rw [jsMax_eq_max, jsMin_eq_min, jsMin_eq_min]
  refine ⟨le_max_left _ _, max_le (by norm_num) (min_le_right _ _), ?_, min_le_left _ _⟩
  refine le_min (by norm_num) ?_
  have hj : 0 ≤ jaccardOf c x := by
    unfold jaccardOf
    exact div_nonneg (Nat.cast_nonneg _) (Nat.cast_nonneg _)
  have hs : 0 ≤ substringScoreOf (shorterOf c x) (longerOf c x) := by
    unfold substringScoreOf
    exact div_nonneg (Nat.cast_nonneg _) (Nat.cast_nonneg _)
  exact add_nonneg (mul_nonneg hj (by norm_num)) (mul_nonneg hs (by norm_num))

/-- Claim C2, counterexample: with candidate `"aa bb"` and the one-item corpus
`"aa cc"`, the pairwise similarity is `7/30 ≠ 0`, yet `detectPlagiarism`
returns score 0 because `7/30` is below the retention threshold — so the
returned score is not the maximum pairwise similarity over compared items. -/
theorem detectPlagiarism_score_not_max_pairwise :
    (detectPlagiarism (strToL "aa bb") [⟨some (strToL "aa cc"), strToL "t"⟩]).score = 0 ∧
    calculateLocalSimilarity (strToL "aa bb") (strToL "aa cc") = 7/30 ∧
    (7/30 : ℚ) ≠ 0 :=
  ⟨by decide, by decide, by norm_num⟩

/-- Claim C2, amended: the batch entry point returns as its score the maximum
over the *retained* similarities — the pairwise scores strictly above 0.3,
plus the authorship score when it strictly exceeds 0.6 — and 0 when no match
is retained (in particular 0 for an empty corpus with a low authorship
score). -/
theorem detectPlagiarism_score_eq_retained_max (content : List Char)
    (subs : List Submission) :
    (detectPlagiarism content subs).score =
      jsListMax (retainedSims content subs ++
        (if detectAIContent content > 0.6 then [detectAIContent content] else [])) := by
  unfold detectPlagiarism
  by_cases h : detectAIContent content > 0.6
  · simp only [if_pos h, List.map_append, List.map_cons, List.map_nil]
    rw [simMatches_map_similarity]
  · simp only [if_neg h, List.append_nil]
    rw [simMatches_map_similarity]

/-- Claim C3, counterexample: for the equal-length texts
`"aaaaaaaaaaaaaaaaaaaaa"` (21 × a) and `"baaaaaaaaaaaaaaaaaaaa"`,
`calculateLocalSimilarity` gives `3/10` one way and `3/20` the other, so it
is not symmetric. -/
theorem calculateLocalSimilarity_not_symmetric :
    calculateLocalSimilarity (strToL "aaaaaaaaaaaaaaaaaaaaa")
        (strToL "baaaaaaaaaaaaaaaaaaaa") ≠
      calculateLocalSimilarity (strToL "baaaaaaaaaaaaaaaaaaaa")
        (strToL "aaaaaaaaaaaaaaaaaaaaa") := by decide

/-- Claim C3, amended: `calculateLocalSimilarity` is symmetric whenever the
two texts have different lengths (the asymmetry can only arise from the
tie-breaking of the longer/shorter selection on equal lengths). -/
theorem calculateLocalSimilarity_symm_of_length_ne (t1 t2 : List Char)
    (h : t1.length ≠ t2.length) :
    calculateLocalSimilarity t1 t2 = calculateLocalSimilarity t2 t1 := by
  unfold calculateLocalSimilarity
  obtain ⟨hs, hl⟩ := shorterOf_longerOf_comm t1 t2 h
  rw [jaccardOf_comm, hs, hl]

/-- Witness for the amended claim C3 at a concrete pair of different
lengths. -/
theorem calculateLocalSimilarity_symm_of_length_ne_witness :
    (strToL "ab").length ≠ (strToL "b").length ∧
    calculateLocalSimilarity (strToL "ab") (strToL "b") =
      calculateLocalSimilarity (strToL "b") (strToL "ab") :=
  ⟨by decide, calculateLocalSimilarity_symm_of_length_ne _ _ (by decide)⟩

/-- Claim C4, counterexample: on two empty strings `calculateLocalSimilarity`
does not return 0 (JavaScript splits the empty string into `[""]`, so both
word sets are `{""}` and the Jaccard part is 1, and the degenerate window
matches). -/
theorem calculateLocalSimilarity_empty_empty_ne_zero :
    calculateLocalSimilarity [] [] ≠ 0 := by decide

/-- Claim C4, amended: when both the candidate and the corpus item are the
empty string, `calculateLocalSimilarity` returns 1 (still a well-defined
number, not `NaN`). -/
theorem calculateLocalSimilarity_empty_empty_eq_one :
    calculateLocalSimilarity [] [] = 1 := by decide

/-- Claim C5, counterexample: on `"aaaaaaaaaaaaaaaaaaaaa"` (21 × a) versus
`"baaaaaaaaaaaaaaaaaaaa"`, the code's overlap counts the repeated window
`"a"*20` once per offset (2/2), while the spec's "distinct windows" reading
counts it once (1/2): the code returns `3/10`, the spec formula `3/20`. -/
theorem calculateLocalSimilarity_ne_distinct_window_spec :
    calculateLocalSimilarity (strToL "aaaaaaaaaaaaaaaaaaaaa")
        (strToL "baaaaaaaaaaaaaaaaaaaa") ≠
      specLocalSimilarity (strToL "aaaaaaaaaaaaaaaaaaaaa")
        (strToL "baaaaaaaaaaaaaaaaaaaa") := by decide

/-- Claim C5, amended: `calculateLocalSimilarity` equals 0.7 times the Jaccard
similarity of the lowercased word sets plus 0.3 times the overlap sub-score
that counts window *offsets* whose window occurs verbatim in the longer text
(repeated windows counted once per offset), divided by
`length(shorter) - windowLen + 1`; in the degenerate case
`length(shorter) <= windowLen` the sub-score is 1.0 if the shorter text is a
substring of the longer, else 0.0; the sum is clamped at 1. -/
theorem calculateLocalSimilarity_eq_offset_formula (t1 t2 : List Char) :
    calculateLocalSimilarity t1 t2 =
      jsMin 1 (jaccardOf t1 t2 * 0.7 +
        offsetOverlap (shorterOf t1 t2) (longerOf t1 t2) * 0.3) := by
  unfold calculateLocalSimilarity
  rw [substringScoreOf_eq_offsetOverlap]

/-- Claim C6, counterexample: with candidate `"a b c d"` and corpus
`["a b c x", "a b c d"]` the returned match list carries similarities
`[21/50, 1]`, which is not sorted in descending order. -/
theorem detectPlagiarism_matches_not_sorted :
    ((detectPlagiarism (strToL "a b c d")
        [⟨some (strToL "a b c x"), strToL "A"⟩,
         ⟨some (strToL "a b c d"), strToL "B"⟩]).matchList.map PlagMatch.similarity) =
      [21/50, 1] ∧ (21/50 : ℚ) < 1 :=
  ⟨by decide, by norm_num⟩

/-- Claim C6, amended: the batch entry point returns at most 10 matches
(hard-coded `slice(0, 10)`), and every returned match has similarity strictly
above 0.3; but the list is in corpus iteration order with the AI pseudo-match
appended last — it is never sorted, and truncation keeps the first ten in that
order, not the top ten by score. -/
theorem detectPlagiarism_matches_length_le_and_above_threshold
    (content : List Char) (subs : List Submission) :
    (detectPlagiarism content subs).matchList.length ≤ 10 ∧
    ((detectPlagiarism content subs).matchList.all
      fun m => decide (m.similarity > 0.3)) = true := by
  unfold detectPlagiarism
  constructor
  · simp only [List.length_take]
    omega
  · rw [List.all_eq_true]
    intro m hm
    have hm' := List.mem_of_mem_take hm
    rw [decide_eq_true_eq]
    by_cases h : detectAIContent content > 0.6
    · rw [if_pos h] at hm'
      rcases List.mem_append.1 hm' with h1 | h1
      · rcases List.mem_filterMap.1 h1 with ⟨s, _, hsm⟩
        exact submissionMatch_similarity_gt _ _ _ hsm
      · have hm2 := List.mem_singleton.1 h1
        subst hm2
        have : (0.3 : ℚ) < 0.6 := by norm_num
        exact lt_trans this h
    · rw [if_neg h] at hm'
      rcases List.mem_filterMap.1 hm' with ⟨s, _, hsm⟩
      exact submissionMatch_similarity_gt _ _ _ hsm

/-- Claim C7, counterexample: a corpus entry with a missing (`null`) content
field does not surface any `InvalidInputError` — no such error type exists in
the module — it is silently skipped, and the call returns the same normal
result as for an empty corpus. -/
theorem detectPlagiarism_silently_skips_invalid_entry :
    detectPlagiarism (strToL "hello") [⟨none, strToL "t"⟩] =
      detectPlagiarism (strToL "hello") [] ∧
    detectPlagiarism (strToL "hello") [] = ⟨0, []⟩ :=
  ⟨by decide, by decide⟩

/-- Claim C7, amended: the similarity core never throws — `detectPlagiarism`
is a total function (the source wraps everything in a catch-all returning
`{score: 0, matches: []}`), and corpus entries whose `content` is missing or
empty are silently skipped rather than signalled: the result is the same as
on the corpus with those entries removed. -/
theorem detectPlagiarism_ignores_falsy_content (content : List Char)
    (subs : List Submission) :
    detectPlagiarism content subs =
      detectPlagiarism content (subs.filter fun s => contentTruthy s.content) := by
  unfold detectPlagiarism
  have hfm : subs.filterMap (submissionMatch content) =
      (subs.filter fun s => contentTruthy s.content).filterMap
        (submissionMatch content) := by
    induction subs with
    | nil => rfl
    | cons s ss ih =>
      by_cases hct : contentTruthy s.content = true
      · simp only [List.filterMap_cons, List.filter_cons, hct, if_true, ih]
      · have hcf : contentTruthy s.content = false := by
          revert hct
          cases contentTruthy s.content <;> simp
        have hn : submissionMatch content s = none := by
          rcases hs : s.content with _ | c
          · simp [submissionMatch, hs]
          · rcases c with _ | ⟨c0, cr⟩
            · simp [submissionMatch, hs]
            · exact absurd (by simp [contentTruthy, hs]) hct
        simp only [List.filterMap_cons, List.filter_cons, hcf, hn,
                   Bool.false_eq_true, if_false]
        exact ih
  rw [hfm]

/-- Claim C8 (code bug): the text `"the the"` contains an immediately-repeated
word pair, but the source's typo regex `/\b([a-z]+)(\1)\b/gi` — written with
no space between the two groups, despite the adjacent comment
`Repeated words like "the the"` — does not match it (it matches doubled
concatenations such as `"thethe"` instead), so the −0.2 typo adjustment is
not applied. -/
theorem typo_regex_misses_spaced_repeated_pair :
    hasImmediateRepeatedWordPair (strToL "the the") = true ∧
    jsHasTypos (strToL "the the") = false ∧
    jsHasTypos (strToL "thethe") = true := by decide

/-- Claim C9: whenever `detectAIContent(content)` exceeds 0.6,
`detectPlagiarism` appends a pseudo-match labeled "AI Content Detection"
carrying the authorship score as its similarity, so on an empty corpus the
returned plagiarism score equals the authorship score — the batch result is
not a function of textual similarity alone. -/
theorem detectPlagiarism_appends_ai_pseudo_match (content : List Char)
    (h : detectAIContent content > 0.6) :
    (detectPlagiarism content []).score = detectAIContent content ∧
    (detectPlagiarism content []).matchList =
      [⟨strToL "AI-generated content detected", detectAIContent content,
        some (strToL "AI Content Detection")⟩] := by
  unfold detectPlagiarism
  simp only [List.filterMap_nil, if_pos h, List.nil_append]
  exact ⟨rfl, rfl⟩

/-- Witness for claim C9: the text `"it is important to note"` has authorship
score 1 (> 0.6), and on the empty corpus `detectPlagiarism` returns that very
score. -/
theorem detectPlagiarism_appends_ai_pseudo_match_witness :
    detectAIContent (strToL "it is important to note") > 0.6 ∧
    (detectPlagiarism (strToL "it is important to note") []).score =
      detectAIContent (strToL "it is important to note") :=
  ⟨by decide, (detectPlagiarism_appends_ai_pseudo_match _ (by decide)).1⟩

/-- Claim C10: JavaScript's `split` yields at least one token on every string
(the empty string counts as one word), so the word count, the sentence count,
the word-set union size, and the window-loop denominator — the denominators of
every unguarded division in `detectAIContent` and `calculateLocalSimilarity` —
are all positive.  (The two remaining divisions, by `totalSentences` and by
`sentenceStarts.length`, are guarded by explicit positivity tests in the
source.) -/
theorem division_denominators_positive (t t1 t2 : List Char) :
    0 < wordCount t ∧ wordCount [] = 1 ∧ 0 < (sentencePieces t).length ∧
    0 < ((wordFinset t1) ∪ (wordFinset t2)).card ∧
    0 < (shorterOf t1 t2).length - windowLenOf (shorterOf t1 t2) + 1 := by
  refine ⟨splitRuns_length_pos _ _, rfl, splitRuns_length_pos _ _, ?_, ?_⟩
  · have h := splitRuns_length_pos isJsWhitespace (t1.map Char.toLower)
    have hne : splitRuns isJsWhitespace (t1.map Char.toLower) ≠ [] := by
      intro hh
      rw [hh] at h
      simp at h
    rcases List.exists_mem_of_ne_nil _ hne with ⟨x, hx⟩
    exact Finset.card_pos.2 ⟨x, Finset.mem_union_left _ (List.mem_toFinset.2 hx)⟩
  · omega

end AIService
